import Mathlib

/-!
# Verification of the db-agent repository

Shallow embedding of the db-agent repository (a PostgreSQL diagnostic MCP
server) and proofs about its claims.

* `src/db_agent/db_connection.py` — the Wait-For Graph Detector
  (`check_deadlocks`) and the Session Handle (`DatabaseConnection`).
* `src/db_agent/server.py` — the tool-dispatch layer (`DatabaseAgent`).
* `scripts/01_trigger_deadlock.py` — the Deadlock Trigger Coordinator.
-/

namespace DbAgent

/-! ## Wait-For Graph Detector (`db_connection.py`, `check_deadlocks`)

The detector issues one SQL query over `pg_locks` and `pg_stat_activity`.
We embed the two catalog tables as lists and the query as its
nested-loop relational semantics: `FROM pg_stat_activity AS blocked`
joined to `pg_locks AS blocked_locks` on pid, self-joined to
`pg_locks AS blocking_locks` on the full resource-descriptor tuple with
`IS NOT DISTINCT FROM` (null-safe equality) and `pid !=`, joined to
`pg_stat_activity AS blocking` on pid, filtered by
`NOT blocked_locks.granted AND blocking_locks.granted`. -/

/-- One row of `pg_locks`: a lock request with its full resource
descriptor, owning backend pid and `granted` flag. Nullable catalog
columns are `Option`. -/
structure Lock where
  pid : Nat
  locktype : String
  database : Option Nat
  relation : Option Nat
  page : Option Nat
  tupleNo : Option Nat
  virtualxid : Option String
  transactionid : Option Nat
  classid : Option Nat
  objid : Option Nat
  objsubid : Option Nat
  granted : Bool
deriving DecidableEq, Repr

/-- One row of `pg_stat_activity`: backend pid, user name, current query
text, and the age of `query_start` already rendered as
`EXTRACT(EPOCH FROM (NOW() - query_start)) * 1000` milliseconds. -/
structure Session where
  pid : Nat
  usename : String
  query : String
  waitTimeMs : Nat
deriving DecidableEq, Repr

/-- The observed engine state the detector query reads: the
active-session table and the lock table. -/
structure DbState where
  activity : List Session
  locks : List Lock
deriving DecidableEq, Repr

/-- The join condition of the self-join of `pg_locks`: equality of every
resource-descriptor column, where `IS NOT DISTINCT FROM` makes two NULLs
equal (`Option` equality). -/
def sameResource (a b : Lock) : Bool :=
  a.locktype == b.locktype &&
  a.database == b.database &&
  a.relation == b.relation &&
  a.page == b.page &&
  a.tupleNo == b.tupleNo &&
  a.virtualxid == b.virtualxid &&
  a.transactionid == b.transactionid &&
  a.classid == b.classid &&
  a.objid == b.objid &&
  a.objsubid == b.objsubid

/-- One output row of the detector query (a ContentionEdge). -/
structure ContentionEdge where
  blocked_pid : Nat
  blocked_user : String
  blocked_query : String
  blocking_pid : Nat
  blocking_user : String
  blocking_query : String
  wait_time_ms : Nat
deriving DecidableEq, Repr

/-- The SELECT list of the detector query: the edge built from the
blocked and blocking `pg_stat_activity` rows. -/
def mkEdge (blocked blocking : Session) : ContentionEdge :=
  { blocked_pid := blocked.pid
    blocked_user := blocked.usename
    blocked_query := blocked.query
    blocking_pid := blocking.pid
    blocking_user := blocking.usename
    blocking_query := blocking.query
    wait_time_ms := blocked.waitTimeMs }

/-- `DatabaseConnection.check_deadlocks` (db_connection.py:127-159): the
nested-loop semantics of its SQL query, enumerating rows in join order
(blocked session, then blocked lock, then blocking lock, then blocking
session). -/
def check_deadlocks (st : DbState) : List ContentionEdge :=
  st.activity.flatMap fun blocked =>
    (st.locks.filter fun bl => bl.pid == blocked.pid).flatMap fun blocked_locks =>
      (st.locks.filter fun kl =>
          sameResource blocked_locks kl && blocked_locks.pid != kl.pid).flatMap
        fun blocking_locks =>
          (st.activity.filter fun s => s.pid == blocking_locks.pid).flatMap
            fun blocking =>
              if !blocked_locks.granted && blocking_locks.granted then
                [mkEdge blocked blocking]
              else []

/-- Formulation of the spec's description of the detector output: an
edge pairs an ungranted lock request with a granted request on the same
resource-descriptor tuple (nulls wildcard-equal) held by a different
session, with the identities and query text of both sessions taken from
the active-session table. -/
def specEdge (st : DbState) (e : ContentionEdge) : Prop :=
  ∃ lb ∈ st.locks, ∃ lg ∈ st.locks, ∃ sb ∈ st.activity, ∃ sg ∈ st.activity,
    lb.granted = false ∧ lg.granted = true ∧
    sameResource lb lg = true ∧ lb.pid ≠ lg.pid ∧
    sb.pid = lb.pid ∧ sg.pid = lg.pid ∧ e = mkEdge sb sg

instance (st : DbState) (e : ContentionEdge) : Decidable (specEdge st e) := by
  unfold specEdge; infer_instance

/-- The spec's "no ungranted conflicting request exists": no ungranted
lock shares its resource with a granted lock of a different session. -/
def noConflict (st : DbState) : Prop :=
  ¬ ∃ lb ∈ st.locks, ∃ lg ∈ st.locks,
      lb.granted = false ∧ lg.granted = true ∧
      sameResource lb lg = true ∧ lb.pid ≠ lg.pid

instance (st : DbState) : Decidable (noConflict st) := by
  unfold noConflict; infer_instance

/-- Membership characterization of the detector's output: a row is
returned iff the spec's edge predicate holds of it. -/
theorem mem_check_deadlocks (st : DbState) (e : ContentionEdge) :
    e ∈ check_deadlocks st ↔ specEdge st e := by
  simp only [check_deadlocks, specEdge, List.mem_flatMap, List.mem_filter,
    Bool.and_eq_true, beq_iff_eq, bne_iff_ne, ne_eq, Bool.not_eq_true']
  constructor
  · rintro ⟨sb, hsb, lb, ⟨hlb, hpid⟩, lg, ⟨hlg, hres, hne⟩, sg, ⟨hsg, hspid⟩, he⟩
    split at he
    · rename_i hg
      simp only [List.mem_singleton] at he
      exact ⟨lb, hlb, lg, hlg, sb, hsb, sg, hsg, hg.1, hg.2, hres, hne,
        hpid.symm, hspid, he⟩
    · simp at he
  · rintro ⟨lb, hlb, lg, hlg, sb, hsb, sg, hsg, hgb, hgg, hres, hne, hsbpid,
      hsgpid, rfl⟩
    refine ⟨sb, hsb, lb, ⟨hlb, hsbpid.symm⟩, lg, ⟨hlg, hres, hne⟩, sg,
      ⟨hsg, hsgpid⟩, ?_⟩
    rw [if_pos ⟨hgb, hgg⟩]
    exact List.mem_singleton.mpr rfl

/-- C1: `check_deadlocks` returns exactly the set of edges pairing an
ungranted lock request with a granted lock request on the same
resource-descriptor tuple (nulls wildcard-equal) held by a different
session; no returned edge is a self-pair, and the result is empty when
no ungranted conflicting request exists. -/
theorem check_deadlocks_correct (st : DbState) :
    (∀ e, e ∈ check_deadlocks st ↔ specEdge st e) ∧
    (∀ e ∈ check_deadlocks st, e.blocked_pid ≠ e.blocking_pid) ∧
    (noConflict st → check_deadlocks st = []) := by
  refine ⟨mem_check_deadlocks st, ?_, ?_⟩
  · intro e he
    rw [mem_check_deadlocks] at he
    obtain ⟨lb, _, lg, _, sb, _, sg, _, _, _, _, hne, hsbpid, hsgpid, rfl⟩ := he
    simp only [mkEdge, ne_eq]
    rw [hsbpid, hsgpid]
    exact hne
  · intro hnc
    rw [List.eq_nil_iff_forall_not_mem]
    intro e he
    rw [mem_check_deadlocks] at he
    obtain ⟨lb, hlb, lg, hlg, _, _, _, _, hgb, hgg, hres, hne, _⟩ := he
    exact hnc ⟨lb, hlb, lg, hlg, hgb, hgg, hres, hne⟩

/-- A state with one injected contention pair: session 1 holds the row
lock on relation 10 that session 2 is waiting for. -/
def stContention : DbState :=
  { activity :=
      [ { pid := 1, usename := "u1", query := "q1", waitTimeMs := 250 },
        { pid := 2, usename := "u2", query := "q2", waitTimeMs := 40 } ],
    locks :=
      [ { pid := 2, locktype := "tuple", database := some 5,
          relation := some 10, page := some 0, tupleNo := some 1,
          virtualxid := none, transactionid := none, classid := none,
          objid := none, objsubid := none, granted := false },
        { pid := 1, locktype := "tuple", database := some 5,
          relation := some 10, page := some 0, tupleNo := some 1,
          virtualxid := none, transactionid := none, classid := none,
          objid := none, objsubid := none, granted := true } ] }

/-- Witness for C1: at the injected contention state the blocked and
blocking pids of the returned edge differ, and at the empty state the
no-conflict hypothesis yields an empty result. -/
theorem check_deadlocks_correct_witness :
    (mkEdge { pid := 2, usename := "u2", query := "q2", waitTimeMs := 40 }
        { pid := 1, usename := "u1", query := "q1", waitTimeMs := 250 }).blocked_pid ≠
      (mkEdge { pid := 2, usename := "u2", query := "q2", waitTimeMs := 40 }
        { pid := 1, usename := "u1", query := "q1", waitTimeMs := 250 }).blocking_pid ∧
    check_deadlocks { activity := [], locks := [] } = [] :=
  ⟨(check_deadlocks_correct stContention).2.1 _ (by decide),
   (check_deadlocks_correct { activity := [], locks := [] }).2.2 (by decide)⟩

/-! ### Ordering of the detector output (C2)

The detector's SQL query has no `ORDER BY` clause: rows come out in join
order, not sorted by `wait_time_ms`. -/

/-- `wait_time_ms` is non-increasing along the list. -/
def sortedByWaitDesc : List ContentionEdge → Bool
  | [] => true
  | [_] => true
  | a :: b :: t => decide (b.wait_time_ms ≤ a.wait_time_ms) && sortedByWaitDesc (b :: t)

/-- A state with two blocked sessions both waiting on locks held by
session 1; the session that has waited less (40 ms) is enumerated first
in `pg_stat_activity`. -/
def stTwoWaiters : DbState :=
  { activity :=
      [ { pid := 2, usename := "u2", query := "q2", waitTimeMs := 40 },
        { pid := 3, usename := "u3", query := "q3", waitTimeMs := 500 },
        { pid := 1, usename := "u1", query := "q1", waitTimeMs := 0 } ],
    locks :=
      [ { pid := 2, locktype := "tuple", database := some 5,
          relation := some 10, page := some 0, tupleNo := some 1,
          virtualxid := none, transactionid := none, classid := none,
          objid := none, objsubid := none, granted := false },
        { pid := 3, locktype := "tuple", database := some 5,
          relation := some 11, page := some 0, tupleNo := some 1,
          virtualxid := none, transactionid := none, classid := none,
          objid := none, objsubid := none, granted := false },
        { pid := 1, locktype := "tuple", database := some 5,
          relation := some 10, page := some 0, tupleNo := some 1,
          virtualxid := none, transactionid := none, classid := none,
          objid := none, objsubid := none, granted := true },
        { pid := 1, locktype := "tuple", database := some 5,
          relation := some 11, page := some 0, tupleNo := some 1,
          virtualxid := none, transactionid := none, classid := none,
          objid := none, objsubid := none, granted := true } ] }

/-- C2 counterexample: at `stTwoWaiters` the detector returns a
non-empty list that is not ordered by `wait_time_ms` descending (the
40 ms edge precedes the 500 ms edge). -/
theorem check_deadlocks_not_sorted_by_wait :
    check_deadlocks stTwoWaiters ≠ [] ∧
    sortedByWaitDesc (check_deadlocks stTwoWaiters) = false := by
  constructor
  · decide
  · decide

/-- The join rows of the detector query as a flat cartesian product in
the enumeration order `blocked session, blocked lock, blocking lock,
blocking session`, filtered by all join and WHERE conditions at once. -/
def contentionRowsInJoinOrder (st : DbState) : List ContentionEdge :=
  (((st.activity.product st.locks).product st.locks).product st.activity).filterMap
    fun r =>
      let sb := r.1.1.1
      let lb := r.1.1.2
      let lg := r.1.2
      let sg := r.2
      if lb.pid == sb.pid && (sameResource lb lg && lb.pid != lg.pid) &&
          sg.pid == lg.pid && (!lb.granted && lg.granted)
      then some (mkEdge sb sg) else none

lemma filterMap_product {α β γ : Type} (l₁ : List α) (l₂ : List β)
    (f : α × β → Option γ) :
    (l₁.product l₂).filterMap f = l₁.flatMap fun a => l₂.filterMap fun b => f (a, b) := by
  induction l₁ with
  | nil => simp [List.product]
  | cons a t ih =>
      simp [List.product, List.filterMap_append, List.filterMap_map,
        Function.comp] at ih ⊢
      simp [ih]
      rfl

lemma flatMap_product {α β γ : Type} (l₁ : List α) (l₂ : List β)
    (g : α × β → List γ) :
    (l₁.product l₂).flatMap g = l₁.flatMap fun a => l₂.flatMap fun b => g (a, b) := by
  induction l₁ with
  | nil => simp [List.product]
  | cons a t ih =>
      simp [List.product, List.flatMap_append, List.flatMap_map] at ih ⊢
      simp [ih]

lemma flatMap_filter {α β : Type} (l : List α) (p : α → Bool) (g : α → List β) :
    (l.filter p).flatMap g = l.flatMap fun a => if p a then g a else [] := by
  induction l with
  | nil => rfl
  | cons a t ih =>
      by_cases h : p a <;> simp [List.filter_cons, h, ih]

lemma filterMap_ite_singleton {α β : Type} (l : List α) (p : α → Bool) (e : α → β) :
    (l.filterMap fun a => if p a then some (e a) else none) =
      l.flatMap fun a => if p a then [e a] else [] := by
  induction l with
  | nil => rfl
  | cons a t ih =>
      by_cases h : p a <;> simp [List.filterMap_cons, h, ih]

/-- C2 amended: the detector's output is the list of contention rows in
join enumeration order; the query performs no sort on `wait_time_ms`. -/
theorem check_deadlocks_eq_join_order (st : DbState) :
    check_deadlocks st = contentionRowsInJoinOrder st := by
  unfold check_deadlocks contentionRowsInJoinOrder
  simp only [filterMap_product, flatMap_product, filterMap_ite_singleton,
    flatMap_filter]
  refine List.flatMap_congr fun sb _ => ?_
  refine List.flatMap_congr fun lb _ => ?_
  cases h₁ : lb.pid == sb.pid
  · simp [h₁]
  · refine List.flatMap_congr fun lg _ => ?_
    cases h₂ : sameResource lb lg && lb.pid != lg.pid
    · simp [h₂]
    · refine List.flatMap_congr fun sg _ => ?_
      cases h₃ : sg.pid == lg.pid <;>
        cases h₄ : !lb.granted && lg.granted <;>
          simp [h₁, h₂, h₃, h₄]

/-! ## Tool-dispatch layer (`server.py`, class `DatabaseAgent`)

Each `check_*` method wraps its whole body in `try: ... except Exception
as e: return {"success": False, "error": str(e)}`.  We embed the body as
an `Except String Report` computation whose database calls are supplied
by an oracle record (each call may raise, i.e. return `.error`), and the
`except` clause as `dispatch`. -/

/-- Helper for `strContains`: does `pat` start the second list? -/
def charsStartWith : List Char → List Char → Bool
  | [], _ => true
  | _ :: _, [] => false
  | a :: as, b :: bs => a == b && charsStartWith as bs

/-- Helper for `strContains`: does `pat` occur inside the second list? -/
def charsInfixOf (pat : List Char) : List Char → Bool
  | [] => pat.isEmpty
  | b :: rest => charsStartWith pat (b :: rest) || charsInfixOf pat rest

/-- Python `pat in s` substring test. -/
def strContains (s pat : String) : Bool :=
  charsInfixOf pat.data s.data

/-- Python `str.lower()` for one character (ASCII case folding; the
strings the agent lowercases are SQL text and table names). -/
def lowerChar (c : Char) : Char :=
  if 'A' ≤ c && c ≤ 'Z' then Char.ofNat (c.toNat + 32) else c

/-- Python `s.lower()`. -/
def strLower (s : String) : String :=
  ⟨s.data.map lowerChar⟩

/-- Python `round(q, 2)` (round half to even, at two decimal places). -/
def pyRound2 (q : ℚ) : ℚ :=
  let x := q * 100
  let f : ℤ := ⌊x⌋
  let r := x - f
  let n : ℤ :=
    if r < 1/2 then f
    else if 1/2 < r then f + 1
    else if f % 2 = 0 then f else f + 1
  (n : ℚ) / 100

/-- Python `int(q)`: truncation toward zero. -/
def intTrunc (q : ℚ) : ℤ :=
  if 0 ≤ q then ⌊q⌋ else -⌊-q⌋

/-- A generic result row whose columns the agent never inspects. -/
structure DataRow where
  fields : List (String × String)
deriving DecidableEq, Repr

/-- A row of `query_stats` as selected by `get_slow_queries`. -/
structure SlowQueryRow where
  query_text : String
  execution_time_ms : ℚ
  rows_affected : ℤ
  executed_at : String
deriving DecidableEq, Repr

/-- One element of the `transactions` list in `check_deadlock` output. -/
structure TxnRow where
  blocked_session : Nat
  blocked_query : String
  blocking_session : Nat
  blocking_query : String
  wait_time_ms : Nat
deriving DecidableEq, Repr

/-- One element of the `anomalies` list in `check_abnormal_data` output. -/
structure Anomaly where
  table : String
  anomaly_type : String
  severity : String
  affected_count : Nat
  sample_records : List DataRow
deriving DecidableEq, Repr

/-- The row of `v_database_stats` read by `get_database_size`. -/
structure SizeInfo where
  database_name : String
  size_mb : ℚ
  size_gb : ℚ
deriving DecidableEq, Repr

/-- A row of `batch_jobs` as selected by `check_batch_data`. -/
structure BatchRow where
  batch_id : Nat
  job_type : String
  total_records : ℤ
  processed_records : ℤ
  failed_records : ℤ
  status : String
  started_at : String
  completed_at : String
deriving DecidableEq, Repr

/-- A row of the grouped `batch_errors` breakdown query. -/
structure BatchErrorRow where
  batch_id : Nat
  error_type : String
  error_count : ℤ
deriving DecidableEq, Repr

/-- A batch row enriched with its `failure_reasons` mapping. -/
structure BatchDetail where
  row : BatchRow
  failure_reasons : List (String × ℤ)
deriving DecidableEq, Repr

/-- The result dictionary a `DatabaseAgent` method returns.  Keys that a
given method does not emit stay `none`. -/
structure Report where
  success : Bool
  error : Option String := none
  input : Option String := none
  query : Option String := none
  response_time_ms : Option ℚ := none
  rows_returned : Option Nat := none
  is_slow : Option Bool := none
  status : Option String := none
  threshold_ms : Option ℚ := none
  recommendations : Option (List String) := none
  recommendation : Option String := none
  slow_queries_found : Option Nat := none
  queries : Option (List SlowQueryRow) := none
  message : Option String := none
  deadlocks_detected : Option Bool := none
  deadlock_count : Option Nat := none
  transactions : Option (List TxnRow) := none
  database : Option String := none
  current_size_mb : Option ℚ := none
  current_size_gb : Option ℚ := none
  max_size_mb : Option ℚ := none
  usage_percent : Option ℚ := none
  growth_rate_mb_per_day : Option ℚ := none
  estimated_days_until_full : Option ℤ := none
  tables_checked : Option String := none
  has_abnormal_data : Option Bool := none
  anomaly_count : Option Nat := none
  total_affected_rows : Option Nat := none
  anomalies : Option (List Anomaly) := none
  time_window_hours : Option Nat := none
  limit : Option Nat := none
  total_batches_analyzed : Option Nat := none
  total_records_processed : Option ℤ := none
  total_failed_records : Option ℤ := none
  failure_rate_percent : Option ℚ := none
  batch_details : Option (List BatchDetail) := none
deriving DecidableEq, Repr

/-- The `except Exception` failure envelope. -/
def errorEnvelope (msg : String) : Report :=
  { success := false, error := some msg }

/-- The `try`/`except` wrapper shared by all agent methods. -/
def dispatch (body : Except String Report) : Report :=
  match body with
  | .ok r => r
  | .error e => errorEnvelope e

/-- `DatabaseAgent._get_slow_query_recommendations`. -/
def slowQueryRecommendations (query : String) : List String :=
  let ql := strLower query
  let r₀ : List String := []
  let r₁ := if strContains ql "where" && strContains ql "category" then
    r₀ ++ ["Add index on category column"] else r₀
  let r₂ := if strContains ql "join" then
    r₁ ++ ["Review JOIN strategy and indexes"] else r₁
  let r₃ := if strContains query "*" then
    r₂ ++ ["Select specific columns instead of *"] else r₂
  let r₄ := if strContains ql "like" then
    r₃ ++ ["Avoid LIKE operations on large tables"] else r₃
  if r₄.isEmpty then
    ["Consider adding appropriate indexes", "Review query execution plan"]
  else r₄

/-- `DatabaseAgent._get_size_recommendations`. -/
def sizeRecommendations (usage_percent : ℚ) (days_until_full : ℤ) : List String :=
  let r₁ := if usage_percent > 70 then
    ["Archive old data to reduce database size"] else []
  let r₂ := if days_until_full < 60 then
    r₁ ++ ["Consider increasing storage allocation"] else r₁
  let r₃ := if usage_percent > 80 then
    r₂ ++ ["Implement data retention policies"] else r₂
  if r₃.isEmpty then ["Monitor growth trends"] else r₃

/-- The database calls `check_query_response_time` performs. -/
structure QueryDb where
  execute_timed_query : String → Except String (List DataRow × ℚ)
  insert_query_stats : String → ℚ → Nat → Bool → Except String Unit
  get_slow_queries : ℚ → Except String (List SlowQueryRow)

/-- The engine state `check_deadlock` reads (the catalog snapshot that
`DatabaseConnection.check_deadlocks` queries; reading it may raise). -/
structure DeadlockDb where
  lock_state : Except String DbState

/-- The database call `check_file_size` performs; `none` models the
empty dict returned when `v_database_stats` has no row. -/
structure SizeDb where
  get_database_size : Except String (Option SizeInfo)

/-- The three anomaly queries `check_abnormal_data` can perform. -/
structure AbnormalDb where
  negative_orders : Except String (List DataRow)
  excessive_inventory : Except String (List DataRow)
  negative_transactions : Except String (List DataRow)

/-- The two queries `check_batch_data` performs. -/
structure BatchDb where
  batch_query : Nat → Nat → Except String (List BatchRow)
  error_query : List Nat → Except String (List BatchErrorRow)

/-- Keywords whose presence classifies the input as a SQL query. -/
def sqlKeywords : List String := ["select", "update", "delete", "insert"]

/-- Body of `DatabaseAgent.check_query_response_time` (server.py:70-134),
the contents of its `try` block. -/
def check_query_response_time_body (db : QueryDb) (input : String) :
    Except String Report := do
  let threshold_ms : ℚ := 1000
  let input_lower := strLower input
  if sqlKeywords.any fun k => strContains input_lower k then
    let (results, execution_time) ← db.execute_timed_query input
    db.insert_query_stats input execution_time results.length
      (decide (execution_time > threshold_ms))
    let is_slow := decide (execution_time > threshold_ms)
    pure { success := true, input := some input, query := some input,
           response_time_ms := some (pyRound2 execution_time),
           rows_returned := some results.length,
           is_slow := some is_slow,
           status := some (if is_slow then "SLOW" else "NORMAL"),
           threshold_ms := some threshold_ms,
           recommendations :=
             some (if is_slow then slowQueryRecommendations input else []) }
  else
    let slow_queries ← db.get_slow_queries threshold_ms
    if !slow_queries.isEmpty then
      pure { success := true, input := some input,
             slow_queries_found := some slow_queries.length,
             status := some "SLOW QUERIES DETECTED",
             queries := some slow_queries,
             threshold_ms := some threshold_ms }
    else
      pure { success := true, input := some input, status := some "NORMAL",
             message := some "No slow queries detected" }

/-- `DatabaseAgent.check_query_response_time`. -/
def check_query_response_time (db : QueryDb) (input : String) : Report :=
  dispatch (check_query_response_time_body db input)

/-- Body of `DatabaseAgent.check_deadlock` (server.py:136-182). -/
def check_deadlock_body (db : DeadlockDb) (input : String) :
    Except String Report := do
  let st ← db.lock_state
  let deadlocks := check_deadlocks st
  if !deadlocks.isEmpty then
    pure { success := true, input := some input,
           deadlocks_detected := some true,
           status := some "ACTIVE DEADLOCK DETECTED",
           deadlock_count := some deadlocks.length,
           transactions := some (deadlocks.map fun d =>
             { blocked_session := d.blocked_pid,
               blocked_query := d.blocked_query,
               blocking_session := d.blocking_pid,
               blocking_query := d.blocking_query,
               wait_time_ms := d.wait_time_ms }),
           recommendation := some
             "Review blocking queries and consider terminating long-running transactions" }
  else
    pure { success := true, input := some input,
           deadlocks_detected := some false,
           status := some "NO ACTIVE DEADLOCK",
           message := some "No deadlocks or blocking sessions detected" }

/-- `DatabaseAgent.check_deadlock`. -/
def check_deadlock (db : DeadlockDb) (input : String) : Report :=
  dispatch (check_deadlock_body db input)

/-- Body of `DatabaseAgent.check_file_size` (server.py:184-233).  The
`none` size dict makes `size_info["size_mb"]` raise a `KeyError`. -/
def requireSome {α : Type} (o : Option α) (key : String) : Except String α :=
  match o with
  | some a => pure a
  | none => Except.error key

def check_file_size_body (db : SizeDb) (input : String) :
    Except String Report := do
  let size_info ← db.get_database_size
  let info ← requireSome size_info "size_mb"
  let max_size_mb : ℚ := 2048
  let size_mb := info.size_mb
  let usage_percent := pyRound2 (size_mb / max_size_mb * 100)
  let status : String :=
    if usage_percent ≥ 90 then "CRITICAL"
    else if usage_percent ≥ 75 then "WARNING"
    else "NORMAL"
  let growth_rate_mb : ℚ := 15
  let estimated_days : ℤ :=
    if growth_rate_mb > 0 then intTrunc ((max_size_mb - size_mb) / growth_rate_mb)
    else 999
  pure { success := true, input := some input,
         database := some info.database_name,
         current_size_mb := some info.size_mb,
         current_size_gb := some info.size_gb,
         max_size_mb := some max_size_mb,
         usage_percent := some usage_percent,
         growth_rate_mb_per_day := some growth_rate_mb,
         estimated_days_until_full := some estimated_days,
         status := some status,
         recommendations := some (sizeRecommendations usage_percent estimated_days) }

/-- `DatabaseAgent.check_file_size`. -/
def check_file_size (db : SizeDb) (input : String) : Report :=
  dispatch (check_file_size_body db input)

/-- Body of `DatabaseAgent.check_abnormal_data` (server.py:235-331).
Each of the three checks runs only when `tables_lower` is in that
check's scope list, and contributes an anomaly entry only when its query
returns rows. -/
def anomalyCheck (inScope : Bool) (query : Except String (List DataRow))
    (acc : List Anomaly) (mk : List DataRow → Anomaly) :
    Except String (List Anomaly) :=
  if inScope then do
    let rows ← query
    pure (if !rows.isEmpty then acc ++ [mk rows] else acc)
  else pure acc

def check_abnormal_data_body (db : AbnormalDb) (tables : String) :
    Except String Report := do
  let tables_lower := strLower tables
  let anomalies₀ : List Anomaly := []
  let anomalies₁ ← anomalyCheck
    (decide (tables_lower ∈ ["all", "orders"])) db.negative_orders anomalies₀
    fun negative_orders =>
      { table := "orders",
        anomaly_type := "Negative order amounts detected",
        severity := "HIGH",
        affected_count := negative_orders.length,
        sample_records := negative_orders.take 3 }
  let anomalies₂ ← anomalyCheck
    (decide (tables_lower ∈ ["all", "inventory"])) db.excessive_inventory anomalies₁
    fun excessive_inventory =>
      { table := "inventory",
        anomaly_type := "Stock count exceeds maximum threshold",
        severity := "MEDIUM",
        affected_count := excessive_inventory.length,
        sample_records := excessive_inventory.take 3 }
  let anomalies₃ ← anomalyCheck
    (decide (tables_lower ∈ ["all", "transactions", "transaction_log"]))
    db.negative_transactions anomalies₂
    fun negative_transactions =>
      { table := "transaction_log",
        anomaly_type := "Large negative transactions detected",
        severity := "HIGH",
        affected_count := negative_transactions.length,
        sample_records := negative_transactions.take 3 }
  if !anomalies₃.isEmpty then
    pure { success := true, tables_checked := some tables,
           has_abnormal_data := some true,
           status := some "ABNORMAL DATA DETECTED",
           anomaly_count := some anomalies₃.length,
           total_affected_rows := some ((anomalies₃.map Anomaly.affected_count).sum),
           anomalies := some anomalies₃,
           recommendations := some
             [ "Review data validation rules",
               "Investigate data entry processes",
               "Consider implementing CHECK constraints" ] }
  else
    pure { success := true, tables_checked := some tables,
           has_abnormal_data := some false,
           status := some "NORMAL",
           message := some ("No data anomalies detected in " ++ tables) }

/-- `DatabaseAgent.check_abnormal_data`. -/
def check_abnormal_data (db : AbnormalDb) (tables : String) : Report :=
  dispatch (check_abnormal_data_body db tables)

/-- Python dict insertion with insertion-order preservation: an existing
key keeps its position and gets the new value, a new key is appended. -/
def upsertAssoc (l : List (String × ℤ)) (k : String) (v : ℤ) :
    List (String × ℤ) :=
  if l.any fun p => p.1 == k then
    l.map fun p => if p.1 == k then (p.1, v) else p
  else l ++ [(k, v)]

/-- One step of the `failure_reasons_map` construction loop. -/
def upsertReasons (m : List (Nat × List (String × ℤ))) (bid : Nat)
    (et : String) (cnt : ℤ) : List (Nat × List (String × ℤ)) :=
  if m.any fun p => p.1 == bid then
    m.map fun p => if p.1 == bid then (p.1, upsertAssoc p.2 et cnt) else p
  else m ++ [(bid, upsertAssoc [] et cnt)]

/-- The `failure_reasons_map` built from the grouped error rows. -/
def buildFailureReasons (errors : List BatchErrorRow) :
    List (Nat × List (String × ℤ)) :=
  errors.foldl (fun m e => upsertReasons m e.batch_id e.error_type e.error_count) []

/-- Python `failure_reasons_map.get(batch_id, {})`. -/
def lookupReasons (m : List (Nat × List (String × ℤ))) (bid : Nat) :
    List (String × ℤ) :=
  ((m.find? fun p => p.1 == bid).map Prod.snd).getD []

/-- Body of `DatabaseAgent.check_batch_data` (server.py:333-427). -/
def check_batch_data_body (db : BatchDb) (hours limit : Nat) :
    Except String Report := do
  let batch_issues ← db.batch_query hours limit
  if !batch_issues.isEmpty then
    let batch_ids := batch_issues.map BatchRow.batch_id
    let error_breakdown ← db.error_query batch_ids
    let failure_reasons_map := buildFailureReasons error_breakdown
    let batch_details := batch_issues.map fun b =>
      { row := b, failure_reasons := lookupReasons failure_reasons_map b.batch_id }
    let total_processed := (batch_issues.map BatchRow.processed_records).sum
    let total_failed := (batch_issues.map BatchRow.failed_records).sum
    let failure_rate : ℚ :=
      if total_processed > 0 then
        pyRound2 ((total_failed : ℚ) / (total_processed : ℚ) * 100)
      else 0
    pure { success := true, time_window_hours := some hours,
           limit := some limit,
           has_abnormal_data := some true,
           status := some "BATCH ISSUES DETECTED",
           total_batches_analyzed := some batch_issues.length,
           total_records_processed := some total_processed,
           total_failed_records := some total_failed,
           failure_rate_percent := some failure_rate,
           batch_details := some batch_details,
           recommendations := some
             [ "Review batch processing logs",
               "Implement retry mechanism for transient failures",
               "Validate data before batch processing" ] }
  else
    pure { success := true, time_window_hours := some hours,
           limit := some limit,
           has_abnormal_data := some false,
           status := some "NORMAL",
           message := some ("No batch failures detected in last " ++
             toString hours ++ " hours") }

/-- `DatabaseAgent.check_batch_data`. -/
def check_batch_data (db : BatchDb) (hours limit : Nat) : Report :=
  dispatch (check_batch_data_body db hours limit)

/-- The status strings the agent methods actually emit on success. -/
def statusVocab : List String :=
  [ "NORMAL", "SLOW", "SLOW QUERIES DETECTED", "ACTIVE DEADLOCK DETECTED",
    "NO ACTIVE DEADLOCK", "CRITICAL", "WARNING", "ABNORMAL DATA DETECTED",
    "BATCH ISSUES DETECTED" ]

/-- The status vocabulary the specification asserts. -/
def claimedStatusVocab : List String :=
  ["NORMAL", "WARNING", "SLOW", "DEADLOCK_DETECTED", "ABNORMAL", "ERROR"]

lemma exceptBind_eq_ok {ε α β : Type} (x : Except ε α) (f : α → Except ε β)
    (b : β) : x >>= f = .ok b ↔ ∃ a, x = .ok a ∧ f a = .ok b := by
  cases x <;> simp [Bind.bind, Except.bind]

lemma dispatch_success_of (body : Except String Report)
    (h : ∀ r, body = .ok r → r.success = true) :
    (dispatch body).success = true ∨ ∃ m, dispatch body = errorEnvelope m := by
  cases body with
  | ok r => exact Or.inl (h r rfl)
  | error e => exact Or.inr ⟨e, rfl⟩

lemma dispatch_status_of (body : Except String Report)
    (h : ∀ r, body = .ok r → ∃ s, r.status = some s ∧ s ∈ statusVocab) :
    (dispatch body).status = none ∨
      ∃ s, (dispatch body).status = some s ∧ s ∈ statusVocab := by
  cases body with
  | ok r => exact Or.inr (h r rfl)
  | error e => exact Or.inl rfl

lemma check_query_response_time_body_ok (db : QueryDb) (input : String) :
    ∀ r, check_query_response_time_body db input = .ok r →
      r.success = true ∧ ∃ s, r.status = some s ∧ s ∈ statusVocab := by
  intro r h
  unfold check_query_response_time_body at h
  dsimp only at h
  split at h
  · rw [exceptBind_eq_ok] at h
    obtain ⟨⟨results, t⟩, _, h⟩ := h
    rw [exceptBind_eq_ok] at h
    obtain ⟨_, _, h⟩ := h
    simp only [pure, Except.pure, Except.ok.injEq] at h
    subst h
    refine ⟨rfl, ?_⟩
    by_cases hs : decide (t > 1000) = true <;> simp [hs, statusVocab]
  · rw [exceptBind_eq_ok] at h
    obtain ⟨sq, _, h⟩ := h
    split at h <;>
      · simp only [pure, Except.pure, Except.ok.injEq] at h
        subst h
        exact ⟨rfl, by simp [statusVocab]⟩

lemma check_deadlock_body_ok (db : DeadlockDb) (input : String) :
    ∀ r, check_deadlock_body db input = .ok r →
      r.success = true ∧ ∃ s, r.status = some s ∧ s ∈ statusVocab := by
  intro r h
  unfold check_deadlock_body at h
  dsimp only at h
  rw [exceptBind_eq_ok] at h
  obtain ⟨st, _, h⟩ := h
  split at h <;>
    · simp only [pure, Except.pure, Except.ok.injEq] at h
      subst h
      exact ⟨rfl, by simp [statusVocab]⟩

lemma check_file_size_body_ok (db : SizeDb) (input : String) :
    ∀ r, check_file_size_body db input = .ok r →
      r.success = true ∧ ∃ s, r.status = some s ∧ s ∈ statusVocab := by
  intro r h
  unfold check_file_size_body at h
  dsimp only at h
  rw [exceptBind_eq_ok] at h
  obtain ⟨si, _, h⟩ := h
  rw [exceptBind_eq_ok] at h
  obtain ⟨info, _, h⟩ := h
  simp only [pure, Except.pure, Except.ok.injEq] at h
  subst h
  refine ⟨rfl, ?_⟩
  by_cases h90 : pyRound2 (info.size_mb / 2048 * 100) ≥ 90
  · simp [h90, statusVocab]
  · by_cases h75 : pyRound2 (info.size_mb / 2048 * 100) ≥ 75 <;>
      simp [h90, h75, statusVocab]

lemma check_abnormal_data_body_ok (db : AbnormalDb) (tables : String) :
    ∀ r, check_abnormal_data_body db tables = .ok r →
      r.success = true ∧ ∃ s, r.status = some s ∧ s ∈ statusVocab := by
  intro r h
  unfold check_abnormal_data_body at h
  dsimp only at h
  rw [exceptBind_eq_ok] at h
  obtain ⟨a₁, _, h⟩ := h
  rw [exceptBind_eq_ok] at h
  obtain ⟨a₂, _, h⟩ := h
  rw [exceptBind_eq_ok] at h
  obtain ⟨a₃, _, h⟩ := h
  split at h <;>
    · simp only [pure, Except.pure, Except.ok.injEq] at h
      subst h
      exact ⟨rfl, by simp [statusVocab]⟩

lemma check_batch_data_body_ok (db : BatchDb) (hours limit : Nat) :
    ∀ r, check_batch_data_body db hours limit = .ok r →
      r.success = true ∧ ∃ s, r.status = some s ∧ s ∈ statusVocab := by
  intro r h
  unfold check_batch_data_body at h
  dsimp only at h
  rw [exceptBind_eq_ok] at h
  obtain ⟨rows, _, h⟩ := h
  split at h
  · rw [exceptBind_eq_ok] at h
    obtain ⟨errs, _, h⟩ := h
    simp only [pure, Except.pure, Except.ok.injEq] at h
    subst h
    exact ⟨rfl, by simp [statusVocab]⟩
  · simp only [pure, Except.pure, Except.ok.injEq] at h
    subst h
    exact ⟨rfl, by simp [statusVocab]⟩

/-- C3: every tool-dispatch operation returns a structured envelope: on
every input and every oracle outcome it either reports `success = true`
or returns exactly the failure envelope with `success = false` and the
error message; it never propagates an exception. -/
theorem tool_dispatch_never_raises :
    (∀ (db : QueryDb) (input : String),
        (check_query_response_time db input).success = true ∨
          ∃ m, check_query_response_time db input = errorEnvelope m) ∧
    (∀ (db : DeadlockDb) (input : String),
        (check_deadlock db input).success = true ∨
          ∃ m, check_deadlock db input = errorEnvelope m) ∧
    (∀ (db : SizeDb) (input : String),
        (check_file_size db input).success = true ∨
          ∃ m, check_file_size db input = errorEnvelope m) ∧
    (∀ (db : AbnormalDb) (tables : String),
        (check_abnormal_data db tables).success = true ∨
          ∃ m, check_abnormal_data db tables = errorEnvelope m) ∧
    (∀ (db : BatchDb) (hours limit : Nat),
        (check_batch_data db hours limit).success = true ∨
          ∃ m, check_batch_data db hours limit = errorEnvelope m) :=
  ⟨fun db i => dispatch_success_of _
      (fun r h => (check_query_response_time_body_ok db i r h).1),
   fun db i => dispatch_success_of _
      (fun r h => (check_deadlock_body_ok db i r h).1),
   fun db i => dispatch_success_of _
      (fun r h => (check_file_size_body_ok db i r h).1),
   fun db t => dispatch_success_of _
      (fun r h => (check_abnormal_data_body_ok db t r h).1),
   fun db hrs lim => dispatch_success_of _
      (fun r h => (check_batch_data_body_ok db hrs lim r h).1)⟩

/-- An idle engine: deadlock query succeeds and sees no activity. -/
def dbIdle : DeadlockDb :=
  { lock_state := .ok { activity := [], locks := [] } }

/-- C5 counterexample: on an idle engine `check_deadlock` reports the
status string "NO ACTIVE DEADLOCK", which is not in the specification's
claimed vocabulary NORMAL | WARNING | SLOW | DEADLOCK_DETECTED |
ABNORMAL | ERROR. -/
theorem check_deadlock_status_outside_claimed_vocab :
    (check_deadlock dbIdle "check").status = some "NO ACTIVE DEADLOCK" ∧
    "NO ACTIVE DEADLOCK" ∉ claimedStatusVocab := by
  exact ⟨rfl, by decide⟩

/-- C5 amended: every report produced by the tool-dispatch operations
either carries no status field (the failure envelope) or a status drawn
from the vocabulary the code actually emits: NORMAL | SLOW |
SLOW QUERIES DETECTED | ACTIVE DEADLOCK DETECTED | NO ACTIVE DEADLOCK |
CRITICAL | WARNING | ABNORMAL DATA DETECTED | BATCH ISSUES DETECTED. -/
theorem tool_dispatch_status_vocab :
    (∀ (db : QueryDb) (input : String),
        (check_query_response_time db input).status = none ∨
          ∃ s, (check_query_response_time db input).status = some s ∧
            s ∈ statusVocab) ∧
    (∀ (db : DeadlockDb) (input : String),
        (check_deadlock db input).status = none ∨
          ∃ s, (check_deadlock db input).status = some s ∧ s ∈ statusVocab) ∧
    (∀ (db : SizeDb) (input : String),
        (check_file_size db input).status = none ∨
          ∃ s, (check_file_size db input).status = some s ∧ s ∈ statusVocab) ∧
    (∀ (db : AbnormalDb) (tables : String),
        (check_abnormal_data db tables).status = none ∨
          ∃ s, (check_abnormal_data db tables).status = some s ∧
            s ∈ statusVocab) ∧
    (∀ (db : BatchDb) (hours limit : Nat),
        (check_batch_data db hours limit).status = none ∨
          ∃ s, (check_batch_data db hours limit).status = some s ∧
            s ∈ statusVocab) :=
  ⟨fun db i => dispatch_status_of _
      (fun r h => (check_query_response_time_body_ok db i r h).2),
   fun db i => dispatch_status_of _
      (fun r h => (check_deadlock_body_ok db i r h).2),
   fun db i => dispatch_status_of _
      (fun r h => (check_file_size_body_ok db i r h).2),
   fun db t => dispatch_status_of _
      (fun r h => (check_abnormal_data_body_ok db t r h).2),
   fun db hrs lim => dispatch_status_of _
      (fun r h => (check_batch_data_body_ok db hrs lim r h).2)⟩

/-- C9: when the batch rows' `processed_records` sum to zero, the
reported failure rate is the guarded constant `0`, not a quotient. -/
theorem check_batch_data_zero_processed (db : BatchDb) (hours limit : Nat)
    (rows : List BatchRow) (errs : List BatchErrorRow)
    (hq : db.batch_query hours limit = .ok rows)
    (hne : rows ≠ [])
    (he : db.error_query (rows.map BatchRow.batch_id) = .ok errs)
    (hsum : (rows.map BatchRow.processed_records).sum = 0) :
    (check_batch_data db hours limit).failure_rate_percent = some 0 := by
  unfold check_batch_data check_batch_data_body
  dsimp only
  rw [hq]
  simp only [Bind.bind, Except.bind]
  rw [if_pos (by simpa [Bool.not_eq_true', List.isEmpty_eq_true] using hne)]
  rw [he]
  rw [hsum]
  simp [dispatch, pure, Except.pure]

/-- A batch oracle with one fully failed row (nothing processed). -/
def batchDbW : BatchDb :=
  { batch_query := fun _ _ => .ok
      [{ batch_id := 7, job_type := "import", total_records := 3,
         processed_records := 0, failed_records := 3, status := "FAILED",
         started_at := "t0", completed_at := "t1" }],
    error_query := fun _ => .ok [] }

/-- Witness for C9 at a concrete oracle whose only returned batch row
has zero processed records. -/
theorem check_batch_data_zero_processed_witness :
    (check_batch_data batchDbW 24 5).failure_rate_percent = some 0 :=
  check_batch_data_zero_processed batchDbW 24 5
    [{ batch_id := 7, job_type := "import", total_records := 3,
       processed_records := 0, failed_records := 3, status := "FAILED",
       started_at := "t0", completed_at := "t1" }] []
    rfl (by decide) rfl (by decide)

/-- C10: a table scope whose lowercase form is none of the recognized
names runs no anomaly query (the result is the same for every oracle,
including one whose every query raises) and reports NORMAL. -/
theorem check_abnormal_data_unrecognized (db : AbnormalDb) (tables : String)
    (h : strLower tables ∉
      ["all", "orders", "inventory", "transactions", "transaction_log"]) :
    check_abnormal_data db tables =
      { success := true, tables_checked := some tables,
        has_abnormal_data := some false, status := some "NORMAL",
        message := some ("No data anomalies detected in " ++ tables) } := by
  simp only [List.mem_cons, List.mem_singleton, not_or, List.not_mem_nil,
    not_false_iff, and_true] at h
  obtain ⟨h1, h2, h3, h4, h5⟩ := h
  unfold check_abnormal_data check_abnormal_data_body
  dsimp only
  rw [show decide (strLower tables ∈ ["all", "orders"]) = false by
        simp [h1, h2],
      show decide (strLower tables ∈ ["all", "inventory"]) = false by
        simp [h1, h3],
      show decide (strLower tables ∈
          ["all", "transactions", "transaction_log"]) = false by
        simp [h1, h4, h5]]
  simp [anomalyCheck, dispatch, Bind.bind, Except.bind, pure, Except.pure]

/-- An anomaly oracle whose every query raises. -/
def abnormalDbFail : AbnormalDb :=
  { negative_orders := .error "boom",
    excessive_inventory := .error "boom",
    negative_transactions := .error "boom" }

/-- Witness for C10: the scope "customers" is not recognized, so even
the all-raising oracle yields the NORMAL report. -/
theorem check_abnormal_data_unrecognized_witness :
    check_abnormal_data abnormalDbFail "customers" =
      { success := true, tables_checked := some "customers",
        has_abnormal_data := some false, status := some "NORMAL",
        message := some ("No data anomalies detected in " ++ "customers") } :=
  check_abnormal_data_unrecognized abnormalDbFail "customers" (by decide)

/-! ## Deadlock Trigger Coordinator (`scripts/01_trigger_deadlock.py`)

`txn1` and `txn2` share one control structure:
`try: <SQL, ending in conn.commit()> except psycopg2.Error: print;
conn.rollback() finally: cur.close(); conn.close()`.  We embed the try
block as its outcome (`.ok` means the script reached `conn.commit()`),
the `except psycopg2.Error` clause as a handler that fires only on
engine errors, and the `finally` clause as the unconditional closes. -/

/-- A Python exception: either a `psycopg2.Error` carrying its
`pgcode`, or any other exception. -/
inductive PyExc where
  | pg (pgcode : String) (msg : String)
  | other (msg : String)
deriving DecidableEq, Repr

/-- Python `isinstance(e, psycopg2.Error)`: what the `except` clause of
the transaction scripts catches. -/
def isPgError : PyExc → Bool
  | .pg _ _ => true
  | .other _ => false

/-- What one transaction script did by the time it terminated. -/
structure ScriptTrace where
  committed : Bool
  rolledBack : Bool
  curClosed : Bool
  connClosed : Bool
  raised : Option PyExc
deriving DecidableEq, Repr

/-- The `try`/`except psycopg2.Error`/`finally` structure of the
transaction scripts: a caught engine error is printed and rolled back
(not re-raised); any other exception propagates; the `finally` clause
closes the cursor and the connection on every path. -/
def txnScript (body : Except PyExc Unit) : ScriptTrace :=
  let (committed, rolledBack, raised) :=
    match body with
    | .ok _ => (true, false, none)
    | .error e =>
        if isPgError e then (false, true, none) else (false, false, some e)
  { committed := committed, rolledBack := rolledBack,
    curClosed := true, connClosed := true, raised := raised }

/-- `txn1` (01_trigger_deadlock.py:18-46), parameterized by the outcome
of its try block. -/
def txn1 (body : Except PyExc Unit) : ScriptTrace := txnScript body

/-- `txn2` (01_trigger_deadlock.py:49-76), parameterized by the outcome
of its try block. -/
def txn2 (body : Except PyExc Unit) : ScriptTrace := txnScript body

/-- The PostgreSQL `deadlock_detected` error code, the engine's
deadlock-class error. -/
def deadlockPgCode : String := "40P01"

/-- C4 counterexample: a `psycopg2` error whose pgcode is not the
deadlock class (42P01, undefined_table) is still swallowed by `txn1` —
rolled back locally and not surfaced to the caller — contradicting the
claim that only the deadlock class is recovered locally. -/
theorem nonDeadlock_engine_error_swallowed :
    (txn1 (.error (.pg "42P01" "relation does not exist"))).raised = none ∧
    (txn1 (.error (.pg "42P01" "relation does not exist"))).rolledBack = true ∧
    "42P01" ≠ deadlockPgCode :=
  ⟨rfl, rfl, by decide⟩

/-- C4 amended: the transaction scripts catch the whole engine error
class (`psycopg2.Error`), deadlock or not, recovering locally via
rollback without surfacing; only non-engine exceptions propagate to the
Coordinator's caller. -/
theorem txn_scripts_error_propagation :
    (∀ c m, (txn1 (.error (.pg c m))).raised = none ∧
        (txn1 (.error (.pg c m))).rolledBack = true) ∧
    (∀ m, (txn1 (.error (.other m))).raised = some (.other m) ∧
        (txn1 (.error (.other m))).rolledBack = false) ∧
    (∀ c m, (txn2 (.error (.pg c m))).raised = none ∧
        (txn2 (.error (.pg c m))).rolledBack = true) ∧
    (∀ m, (txn2 (.error (.other m))).raised = some (.other m) ∧
        (txn2 (.error (.other m))).rolledBack = false) :=
  ⟨fun _ _ => ⟨rfl, rfl⟩, fun _ => ⟨rfl, rfl⟩,
   fun _ _ => ⟨rfl, rfl⟩, fun _ => ⟨rfl, rfl⟩⟩

/-- C7: on every exit path of each transaction script — commit, caught
engine error, or propagating exception — the cursor and the connection
are closed before the script terminates. -/
theorem txn_sessions_closed (body : Except PyExc Unit) :
    (txn1 body).curClosed = true ∧ (txn1 body).connClosed = true ∧
    (txn2 body).curClosed = true ∧ (txn2 body).connClosed = true := by
  cases body <;> exact ⟨rfl, rfl, rfl, rfl⟩

/-- The two module-level `threading.Event` flags of the Coordinator. -/
structure BarrierState where
  lock1_acquired : Bool
  lock2_acquired : Bool
deriving DecidableEq, Repr

/-- The two `clear()` calls opening `run_deadlock_round`
(01_trigger_deadlock.py:81-82). -/
def resetBarrier (_ : BarrierState) : BarrierState :=
  { lock1_acquired := false, lock2_acquired := false }

/-- `run_deadlock_round` (01_trigger_deadlock.py:79-93): both flags are
cleared, then the two transaction threads are launched and may set the
flags in any interleaving (an arbitrary transformation `threads` of the
cleared state).  Returns the state at thread launch and the state at
round end. -/
def run_deadlock_round (st : BarrierState)
    (threads : BarrierState → BarrierState) : BarrierState × BarrierState :=
  let launch := resetBarrier st
  (launch, threads launch)

/-- C6: for any two back-to-back rounds, whatever round N's threads did
to the flags and however round N ended, round N+1 clears both flags
before either transaction thread launches. -/
theorem barrier_cleared_between_rounds (st : BarrierState)
    (threadsN threadsN1 : BarrierState → BarrierState) :
    (run_deadlock_round (run_deadlock_round st threadsN).2
        threadsN1).1.lock1_acquired = false ∧
    (run_deadlock_round (run_deadlock_round st threadsN).2
        threadsN1).1.lock2_acquired = false :=
  ⟨rfl, rfl⟩

/-! ## Session Handle (`db_connection.py`, `DatabaseConnection`) -/

/-- An established psycopg2 connection object (opaque identity). -/
structure Conn where
  id : Nat
deriving DecidableEq, Repr

/-- `DatabaseConnection.disconnect` (db_connection.py:63-68) acting on
the `_connection` attribute (`none` models Python `None`): returns the
new attribute value and whether the underlying `close()` ran. -/
def disconnect : Option Conn → Option Conn × Bool
  | some _ => (none, true)
  | none => (none, false)

/-- C8: `disconnect` is idempotent — a second call leaves `_connection`
exactly as the first call left it and performs no close action (and,
being total, raises nothing). -/
theorem disconnect_idempotent (st : Option Conn) :
    (disconnect (disconnect st).1).1 = (disconnect st).1 ∧
    (disconnect (disconnect st).1).2 = false := by
  cases st <;> exact ⟨rfl, rfl⟩

end DbAgent
